import Mathlib

/-!
Shallow embedding of the clipipe clipboard backend abstraction and protocol
dispatcher (src/clipboard.rs, src/linux.rs, src/windows.rs, src/main.rs),
together with theorems settling the frozen claims about it.

Modelling conventions:
* Rust `String`/`&str` values are Lean `String`s; where the Rust code moves
  text through its UTF-8 byte representation and back (`as_bytes` on copy,
  `from_utf8_lossy` on paste of bytes that were stored from a valid string),
  the byte step is the identity on the transported string, so clipboard slots
  store the `String` directly.  Arbitrary (possibly invalid) byte input, as
  in the X11 paste path, is modelled as `List Nat` with an executable lossy
  UTF-8 decoder.
* Machine integers that never overflow in the modelled ranges (retry
  counters, millisecond delays) are `Nat`.
* Fallible Rust code returning `Result` becomes `Except`.
* The native clipboard/display libraries are black boxes (per the spec they
  are external collaborators): their outcomes are inputs to the embedded
  functions, and a small state machine stands in for the round-trip
  behaviour of a real clipboard.
-/

namespace Clipipe

/-- Source of a paste (clipboard.rs `Source`). -/
inductive Source where
  | default
  | primary
  | clipboard
deriving DecidableEq, Repr

/-- Destination of a copy (clipboard.rs `Dest`). -/
inductive Dest where
  | default
  | primary
  | clipboard
  | both
deriving DecidableEq, Repr

/-- Data returned from a paste (clipboard.rs `Data`): text plus an advisory
mime type. -/
structure Data where
  data : String
  mime : Option String
deriving DecidableEq, Repr

/-- Error information (clipboard.rs `ErrorDetail`). -/
inductive ErrorDetail where
  | noDisplayServer
  | invalidUtf8
  | system
deriving DecidableEq, Repr

/-- Display strings of `ErrorDetail` (clipboard.rs `impl Display for
ErrorDetail`). -/
def ErrorDetail.display : ErrorDetail → String
  | .noDisplayServer => "no display server available"
  | .invalidUtf8 => "invalid UTF-8"
  | .system => "system error"

/-- Chain of error messages: models a `dyn std::error::Error` as its
`to_string()` message plus the chain reached through `source()`.  `last`
is an error whose `source()` is `None` (the root cause). -/
inductive ErrChain where
  | last (message : String)
  | cons (message : String) (source : ErrChain)
deriving DecidableEq, Repr

def ErrChain.message : ErrChain → String
  | .last m => m
  | .cons m _ => m

def ErrChain.source : ErrChain → Option ErrChain
  | .last _ => none
  | .cons _ s => some s

/-- Root cause of a chain: the last element reached through `source()`. -/
def ErrChain.root : ErrChain → String
  | .last m => m
  | .cons _ s => s.root

/-- Clipboard operation error (clipboard.rs `Error`): a detail plus an
optional underlying cause.  `Display` delegates to the detail and
`std::error::Error::source` returns the stored cause. -/
structure CError where
  detail : ErrorDetail
  source : Option ErrChain

/-- View of a `CError` as the message chain a caller of the `std::error`
interface observes: its own display string, then the cause chain. -/
def CError.toChain (e : CError) : ErrChain :=
  match e.source with
  | none => .last e.detail.display
  | some c => .cons e.detail.display c

/-- Constructor `Error::new` (clipboard.rs). -/
def CError.new (detail : ErrorDetail) : CError :=
  { detail := detail, source := none }

/-- Constructor `Error::new_with_source` (clipboard.rs): the foreign error is
retained as the cause, represented by its own message chain. -/
def CError.newWithSource (detail : ErrorDetail) (src : ErrChain) : CError :=
  { detail := detail, source := some src }

/-! ### Windows line-ending conversion (windows.rs `copy`/`paste`)

Rust's `str::replace(from, to)` substitutes the leftmost occurrence of
`from`, continues after the substituted text, and never rescans replaced
output.  Both needles here are concrete (`"\n"` and `"\r\n"`), so the two
replacements specialise to the list-of-chars recursions below. -/

/-- Conversion applied by windows.rs `copy` when `convert_line_endings` is
set: `data.replace("\n", "\r\n")`. -/
def lfToCrlf : List Char → List Char
  | [] => []
  | c :: rest =>
    if c = '\n' then '\r' :: '\n' :: lfToCrlf rest
    else c :: lfToCrlf rest

/-- Conversion applied by windows.rs `paste` when `convert_line_endings` is
set: `data.replace("\r\n", "\n")` (leftmost-match, non-overlapping). -/
def crlfToLf : List Char → List Char
  | [] => []
  | [c] => [c]
  | c1 :: c2 :: rest =>
    if c1 = '\r' ∧ c2 = '\n' then '\n' :: crlfToLf rest
    else c1 :: crlfToLf (c2 :: rest)

/-- String versions, as used on `String` fields of the backend. -/
def lfToCrlfS (s : String) : String :=
  ⟨lfToCrlf s.data⟩

def crlfToLfS (s : String) : String :=
  ⟨crlfToLf s.data⟩

theorem lfToCrlf_head_ne_lf (l : List Char) :
    ∀ l', lfToCrlf l = '\n' :: l' → False := by
  intro l' h
  match l with
  | [] => simp [lfToCrlf] at h
  | c :: rest =>
    by_cases hc : c = '\n'
    · subst hc
      simp [lfToCrlf] at h
    · simp [lfToCrlf, hc] at h

/-- Core of the Windows round trip: rewriting every `\n` to `\r\n` and then
every `\r\n` back to `\n` is the identity, for arbitrary input (including
input already containing `\r\n` or stray `\r`). -/
theorem crlfToLf_lfToCrlf (l : List Char) : crlfToLf (lfToCrlf l) = l := by
  induction l with
  | nil => simp [lfToCrlf, crlfToLf]
  | cons c rest ih =>
    by_cases hc : c = '\n'
    · subst hc
      simp [lfToCrlf, crlfToLf, ih]
    · rw [lfToCrlf]
      simp only [if_neg hc]
      match hrest : lfToCrlf rest with
      | [] =>
        have : rest = [] := by
          have := ih
          rw [hrest] at this
          simpa [crlfToLf] using this.symm
        simp [crlfToLf, this]
      | c2 :: rest2 =>
        have hc2 : ¬(c = '\r' ∧ c2 = '\n') := by
          rintro ⟨-, h2⟩
          subst h2
          exact lfToCrlf_head_ne_lf rest rest2 hrest
        rw [crlfToLf]
        simp only [if_neg hc2]
        rw [← hrest, ih]

theorem crlfToLfS_lfToCrlfS (s : String) : crlfToLfS (lfToCrlfS s) = s := by
  cases s with
  | mk l => simp [crlfToLfS, lfToCrlfS, crlfToLf_lfToCrlf]

/-! ### Wayland backend (linux.rs) -/

/-- Clipboard targets of a Wayland copy (wl_clipboard_rs
`copy::ClipboardType`). -/
inductive CopyClipboardType where
  | regular
  | primary
  | both
deriving DecidableEq, Repr

/-- Clipboard targets of a Wayland paste (wl_clipboard_rs
`paste::ClipboardType`). -/
inductive PasteClipboardType where
  | regular
  | primary
deriving DecidableEq, Repr

/-- Errors of the native Wayland paste call, with the three variants that
linux.rs special-cases kept distinct (wl_clipboard_rs `paste::Error`).
Other variants are collapsed into their display message, which is all the
backend uses of them. -/
inductive PasteError where
  | clipboardEmpty
  | noSeats
  | noMimeType
  | other (msg : String)
deriving DecidableEq, Repr

/-- Display message of a `PasteError` (texts abbreviate the library's,
immaterial to the claims). -/
def PasteError.display : PasteError → String
  | .clipboardEmpty => "The clipboard of the requested seat is empty"
  | .noSeats => "There are no seats"
  | .noMimeType => "No compatible MIME type is offered"
  | .other msg => msg

/-- Wayland backend (linux.rs `WaylandBackend`): the probed
primary-selection capability flag. -/
structure WaylandBackend where
  primary_supported : Bool
deriving DecidableEq, Repr

/-- linux.rs `WaylandBackend::copy_type`. -/
def WaylandBackend.copy_type (b : WaylandBackend) (dest : Dest) :
    CopyClipboardType :=
  match dest, b.primary_supported with
  | .default, _ | .clipboard, _ => .regular
  | .primary, true => .primary
  | .both, true => .both
  | .primary, false | .both, false => .regular

/-- linux.rs `WaylandBackend::paste_type`. -/
def WaylandBackend.paste_type (b : WaylandBackend) (source : Source) :
    PasteClipboardType :=
  match source, b.primary_supported with
  | .default, _ | .clipboard, _ => .regular
  | .primary, true => .primary
  | .primary, false => .regular

/-- Model of `str::starts_with` (for the fixed pattern used here, the byte
prefix test coincides with the character prefix test). -/
def strStartsWith (s p : String) : Bool :=
  List.isPrefixOf p.data s.data

/-- Outcome of the native `get_contents` call plus the subsequent
`read_to_end` in linux.rs `WaylandBackend::paste`: an offer carrying the
selected mime type and the result of reading the pipe (which may fail with
an io error, given by its message), or a native paste error. -/
inductive WlPasteOutcome where
  | offer (read : Except String String) (mime : String)
  | err (e : PasteError)

/-- linux.rs `WaylandBackend::paste`, lines 83-117, as a function of the
native outcome: empty-clipboard conditions are normalized to empty data,
offers with a `text/_moz` mime are discarded, read bytes are decoded
lossily (the identity on the transported string). -/
def wlPasteCore : WlPasteOutcome → Except CError Data
  | .offer read mime =>
    match read with
    | .error ioe => .error (CError.newWithSource .system (.last ioe))
    | .ok contents =>
      if strStartsWith mime "text/_moz" then
        .ok { data := "", mime := none }
      else
        .ok { data := contents, mime := some mime }
  | .err .clipboardEmpty => .ok { data := "", mime := none }
  | .err .noSeats => .ok { data := "", mime := none }
  | .err .noMimeType => .ok { data := "", mime := none }
  | .err (.other msg) =>
    .error (CError.newWithSource .system (.last (PasteError.other msg).display))

/-- Native Wayland clipboard state: the two selections, each holding
(content, mime type) when owned.  Stands in for the compositor in
round-trip reasoning. -/
structure WlState where
  regular : Option (String × String)
  primary : Option (String × String)
deriving DecidableEq, Repr

/-- linux.rs `WaylandBackend::copy`, success path of the native call: the
offer advertises `text/plain` text and is stored in the slot(s) chosen by
`copy_type`. -/
def WaylandBackend.copy (b : WaylandBackend) (dest : Dest) (data : String)
    (st : WlState) : WlState :=
  match b.copy_type dest with
  | .regular => { st with regular := some (data, "text/plain") }
  | .primary => { st with primary := some (data, "text/plain") }
  | .both =>
    { regular := some (data, "text/plain"), primary := some (data, "text/plain") }

/-- Native offer the compositor produces for a paste from `st`: the slot's
content with its mime, or the clipboard-empty error for an unowned slot. -/
def WlState.read (st : WlState) (t : PasteClipboardType) : WlPasteOutcome :=
  match t with
  | .regular =>
    match st.regular with
    | some (c, m) => .offer (.ok c) m
    | none => .err .clipboardEmpty
  | .primary =>
    match st.primary with
    | some (c, m) => .offer (.ok c) m
    | none => .err .clipboardEmpty

/-- linux.rs `WaylandBackend::paste` against the clipboard state machine. -/
def WaylandBackend.paste (b : WaylandBackend) (src : Source) (st : WlState) :
    Except CError Data :=
  wlPasteCore (st.read (b.paste_type src))

/-! ### Windows backend (windows.rs) -/

/-- Windows backend (windows.rs `Backend`): the line-ending conversion
flag fixed at startup. -/
structure WinBackend where
  convert_line_endings : Bool
deriving DecidableEq, Repr

/-- windows.rs `Backend::clipboard` (lines 42-60): the bounded lock retry
loop.  `lock i = none` means the i-th `Clipboard::new()` attempt (0-based)
succeeds; `some msg` is that attempt's `ErrorCode`, given by its message.
`i` is the next attempt index, `tries` and `delay` the loop variables
(initially 10 and 10).  Returns the index of the successful attempt or the
last attempt's error, paired with the list of sleeps performed (ms). -/
def winLockLoop (lock : Nat → Option String) :
    Nat → Nat → Nat → Except String Nat × List Nat
  | i, tries, delay =>
    match lock i with
    | none => (.ok i, [])
    | some e =>
      match tries with
      -- tries = 0 cannot arise from the initial state (tries starts at 10)
      | 0 => (.error e, [])
      | t + 1 =>
        -- the decremented counter is t; the loop exits when it reaches 0
        if t = 0 then (.error e, [])
        else
          let r := winLockLoop lock (i + 1) t (min (delay * 2) 500)
          (r.1, delay :: r.2)

/-- Result part of the retry loop from its initial state. -/
def winClipboardResult (lock : Nat → Option String) : Except String Nat :=
  (winLockLoop lock 0 10 10).1

/-- Sleeps (in ms) performed by the retry loop from its initial state. -/
def winClipboardSleeps (lock : Nat → Option String) : List Nat :=
  (winLockLoop lock 0 10 10).2

/-- windows.rs `Backend::clipboard` as the caller sees it: lock exhaustion
is wrapped by `From<ErrorCode> for Error` (windows.rs lines 20-24) into a
System error whose cause is the error code. -/
def winClipboard (lock : Nat → Option String) : Except CError Unit :=
  match winClipboardResult lock with
  | .ok _ => .ok ()
  | .error e => .error (CError.newWithSource .system (.last e))

/-- Outcome of the native `get(formats::Unicode)` call: text, or a raw
Windows error code with its message. -/
inductive WinGetOutcome where
  | ok (data : String)
  | err (rawCode : Nat) (msg : String)

/-- Match arm of windows.rs `Backend::get` (lines 64-69) on the native
outcome: raw codes 6 and 1168 are normalized to empty text, other codes
become System errors. -/
def winGetFrom : WinGetOutcome → Except CError String
  | .ok data => .ok data
  | .err code msg =>
    if code = 6 ∨ code = 1168 then .ok ""
    else .error (CError.newWithSource .system (.last msg))

/-- windows.rs `Backend::get`: lock, then native get. -/
def winGet (lock : Nat → Option String) (native : WinGetOutcome) :
    Except CError String := do
  winClipboard lock
  winGetFrom native

/-- windows.rs `Backend::set`: lock, then native set, modelled on its
success path as replacing the single clipboard slot. -/
def winSet (lock : Nat → Option String) (data : String) :
    Except CError (Option String) := do
  winClipboard lock
  pure (some data)

/-- windows.rs `Backend::copy`: optional `\n` to `\r\n` conversion, then
`Self::set`; the destination selector is ignored (Windows has one
clipboard). -/
def WinBackend.copy (b : WinBackend) (lock : Nat → Option String)
    (_dest : Dest) (data : String) : Except CError (Option String) :=
  if b.convert_line_endings then winSet lock (lfToCrlfS data)
  else winSet lock data

/-- Native outcome a Windows clipboard state produces for a get: an empty
clipboard surfaces as one of the normalized raw error codes. -/
def winStateRead (st : Option String) : WinGetOutcome :=
  match st with
  | some s => .ok s
  | none => .err 6 "ERROR_INVALID_HANDLE"

/-- windows.rs `Backend::paste`: `Self::get`, then optional `\r\n` to `\n`
conversion; the mime field is always absent. -/
def WinBackend.paste (b : WinBackend) (lock : Nat → Option String)
    (_src : Source) (native : WinGetOutcome) : Except CError Data := do
  let data ← winGet lock native
  pure { data := if b.convert_line_endings then crlfToLfS data else data,
         mime := none }

/-- Lock pattern with no contention: every acquisition attempt succeeds. -/
def lockOk : Nat → Option String := fun _ => none

/-! ### X11 backend (linux.rs) -/

/-- X11 selection atoms used by the backend. -/
inductive Atom where
  | primary
  | clipboard
deriving DecidableEq, Repr

/-- linux.rs `X11Backend::source_atom`. -/
def x11_source_atom : Source → Atom
  | .default | .primary => .primary
  | .clipboard => .clipboard

/-- linux.rs `X11Backend::dest_atoms` (with the precomputed `both` pair). -/
def x11_dest_atoms : Dest → List Atom
  | .default | .primary => [.primary]
  | .clipboard => [.clipboard]
  | .both => [.primary, .clipboard]

/-- Replacement character U+FFFD used by `String::from_utf8_lossy`. -/
def replacementChar : Char := Char.ofNat 0xFFFD

/-- Continuation byte test (0x80-0xBF). -/
def isCont (b : Nat) : Bool := decide (0x80 ≤ b ∧ b ≤ 0xBF)

/-- Valid second bytes of a multi-byte sequence by leading byte (the WHATWG
UTF-8 ranges, as enforced by Rust's validator). -/
def cont2ok (b b2 : Nat) : Bool :=
  if b = 0xE0 then decide (0xA0 ≤ b2 ∧ b2 ≤ 0xBF)
  else if b = 0xED then decide (0x80 ≤ b2 ∧ b2 ≤ 0x9F)
  else if b = 0xF0 then decide (0x90 ≤ b2 ∧ b2 ≤ 0xBF)
  else if b = 0xF4 then decide (0x80 ≤ b2 ∧ b2 ≤ 0x8F)
  else isCont b2

/-- Executable model of `String::from_utf8_lossy`: decode UTF-8, replacing
each maximal subpart of an invalid sequence with U+FFFD (the substitution
policy Rust implements).  Total: never fails on any byte input. -/
def utf8Lossy : List Nat → List Char
  | [] => []
  | b :: rest =>
    if b < 0x80 then Char.ofNat b :: utf8Lossy rest
    else if b < 0xC2 then replacementChar :: utf8Lossy rest
    else if b < 0xE0 then
      match rest with
      | [] => [replacementChar]
      | b2 :: rest2 =>
        if isCont b2 then
          Char.ofNat ((b - 0xC0) * 0x40 + (b2 - 0x80)) :: utf8Lossy rest2
        else replacementChar :: utf8Lossy (b2 :: rest2)
    else if b < 0xF0 then
      match rest with
      | [] => [replacementChar]
      | b2 :: rest2 =>
        if cont2ok b b2 then
          match rest2 with
          | [] => [replacementChar]
          | b3 :: rest3 =>
            if isCont b3 then
              Char.ofNat (((b - 0xE0) * 0x40 + (b2 - 0x80)) * 0x40 + (b3 - 0x80))
                :: utf8Lossy rest3
            else replacementChar :: utf8Lossy (b3 :: rest3)
        else replacementChar :: utf8Lossy (b2 :: rest2)
    else if b < 0xF5 then
      match rest with
      | [] => [replacementChar]
      | b2 :: rest2 =>
        if cont2ok b b2 then
          match rest2 with
          | [] => [replacementChar]
          | b3 :: rest3 =>
            if isCont b3 then
              match rest3 with
              | [] => [replacementChar]
              | b4 :: rest4 =>
                if isCont b4 then
                  Char.ofNat ((((b - 0xF0) * 0x40 + (b2 - 0x80)) * 0x40
                    + (b3 - 0x80)) * 0x40 + (b4 - 0x80)) :: utf8Lossy rest4
                else replacementChar :: utf8Lossy (b4 :: rest4)
            else replacementChar :: utf8Lossy (b3 :: rest3)
        else replacementChar :: utf8Lossy (b2 :: rest2)
    else replacementChar :: utf8Lossy rest

/-- linux.rs `X11Backend::paste` (lines 168-179) as a function of the
native `load` outcome (the property bytes, or the error's message):
lossy-decode the bytes, never report a mime; a load failure becomes a
System error via `From<X11Error> for Error`. -/
def x11_paste (load : Except String (List Nat)) : Except CError Data :=
  match load with
  | .error e => .error (CError.newWithSource .system (.last e))
  | .ok contents => .ok { data := ⟨utf8Lossy contents⟩, mime := none }

/-! ### Protocol dispatcher (main.rs)

JSON values are modelled by the shapes the protocol uses; `serde_json::Map`
(a `BTreeMap`) is modelled as an association list with insert-or-overwrite.
The claims depend on field membership, never on serialized key order. -/

/-- JSON value. -/
inductive JValue where
  | jnull
  | jbool (b : Bool)
  | jnum (n : Int)
  | jstr (s : String)
  | jobj (fields : List (String × JValue))

/-- Escape of one character inside a JSON string literal (serde also
escapes other control characters; none occur in the modelled inputs). -/
def escapeJsonChar (c : Char) : String :=
  if c = '"' then "\\\""
  else if c = '\\' then "\\\\"
  else if c = '\n' then "\\n"
  else if c = '\r' then "\\r"
  else if c = '\t' then "\\t"
  else String.singleton c

def escapeJson (s : String) : String :=
  String.join (s.data.map escapeJsonChar)

mutual

/-- Compact rendering of a JSON value (serde `Display`), used by `format!`
in the dispatcher's error messages. -/
def renderJValue : JValue → String
  | .jnull => "null"
  | .jbool true => "true"
  | .jbool false => "false"
  | .jnum n => toString n
  | .jstr s => "\"" ++ escapeJson s ++ "\""
  | .jobj fields => "\x7b" ++ renderJFields fields ++ "\x7d"

def renderJFields : List (String × JValue) → String
  | [] => ""
  | [(k, v)] => "\"" ++ escapeJson k ++ "\":" ++ renderJValue v
  | (k, v) :: rest =>
    "\"" ++ escapeJson k ++ "\":" ++ renderJValue v ++ "," ++ renderJFields rest

end

/-- Map insert (`serde_json::Map::insert`): overwrite the value under an
existing key, otherwise add the entry. -/
def insertField : List (String × JValue) → String → JValue → List (String × JValue)
  | [], k, v => [(k, v)]
  | (k1, v1) :: rest, k, v =>
    if k1 = k then (k, v) :: rest else (k1, v1) :: insertField rest k v

/-- Map lookup (`serde_json::Map::get`). -/
def lookupField : List (String × JValue) → String → Option JValue
  | [], _ => none
  | (k1, v) :: rest, k => if k1 = k then some v else lookupField rest k

/-- Field lookup on a JSON value (`Map::get` on objects). -/
def JValue.getField : JValue → String → Option JValue
  | .jobj fs, k => lookupField fs k
  | _, _ => none

/-- Protocol action (main.rs `ClipboardAction`). -/
inductive ClipboardAction where
  | copy (dest : Dest) (data : String)
  | paste (source : Source)
  | query
deriving DecidableEq, Repr

/-- main.rs `ClipboardAction::source`: resolve the optional `clipboard`
field of a paste request. -/
def parseSourceField : Option JValue → Except String Source
  | none => .ok .default
  | some (.jstr name) =>
    if name = "default" then .ok .default
    else if name = "clipboard" then .ok .clipboard
    else if name = "primary" then .ok .primary
    else .error ("Invalid clipboard source: " ++ name)
  | some value => .error ("Invalid clipboard source: " ++ renderJValue value)

/-- main.rs `ClipboardAction::dest`: resolve the optional `clipboard`
field of a copy request (also admits `both`). -/
def parseDestField : Option JValue → Except String Dest
  | none => .ok .default
  | some (.jstr name) =>
    if name = "default" then .ok .default
    else if name = "clipboard" then .ok .clipboard
    else if name = "primary" then .ok .primary
    else if name = "both" then .ok .both
    else .error ("Invalid clipboard destination: " ++ name)
  | some value => .error ("Invalid clipboard destination: " ++ renderJValue value)

/-- main.rs `ClipboardAction::data`: the `data` field of a copy request
must be present and a string. -/
def parseDataField : Option JValue → Except String String
  | none => .error "Request is missing `data`"
  | some (.jstr data) => .ok data
  | some value => .error ("Invalid clipboard data: " ++ renderJValue value)

/-- main.rs `ClipboardAction::parse`: resolve the `action` field and the
action's arguments (for `copy`, the destination is resolved before the
data, as in the source). -/
def parseAction (doc : List (String × JValue)) : Except String ClipboardAction :=
  match lookupField doc "action" with
  | none => .error "No action specified"
  | some (.jstr name) =>
    if name = "copy" then
      match parseDestField (lookupField doc "clipboard") with
      | .error e => .error e
      | .ok dest =>
        match parseDataField (lookupField doc "data") with
        | .error e => .error e
        | .ok data => .ok (.copy dest data)
    else if name = "paste" then
      match parseSourceField (lookupField doc "clipboard") with
      | .error e => .error e
      | .ok src => .ok (.paste src)
    else if name = "query" then .ok .query
    else .error ("Invalid action: " ++ name)
  | some value => .error ("Expected string for action: " ++ renderJValue value)

/-- Build-time constant `CARGO_PKG_VERSION` (main.rs `VERSION`); the Cargo
manifest is outside the modelled sources and no claim depends on the
value. -/
def VERSION : String := "0.1.0"

/-- main.rs `query()`: the version payload. -/
def queryResponse : List (String × JValue) :=
  insertField [] "version" (.jstr VERSION)

/-- Boxing of a backend result for the dispatcher (`?` on a
`clipboard::Error` into `Box<dyn std::error::Error>`): the error is seen
through its message chain. -/
def liftBackend : Except CError α → Except ErrChain α
  | .ok a => .ok a
  | .error e => .error e.toChain

/-- main.rs `Clipboard::process_request`, parameterized by the active
backend's capabilities.  The input is the outcome of `serde_json::from_str`
on one line (the parsed object, or the parse error's message — JSON parsing
itself is the external serde collaborator); errors are the message chains
the boxed errors expose. -/
def process_request (copyFn : Dest → String → Except ErrChain Unit)
    (pasteFn : Source → Except ErrChain Data)
    (line : Except String (List (String × JValue))) :
    Except ErrChain (List (String × JValue)) :=
  match line with
  | .error parseMsg => .error (.last parseMsg)
  | .ok obj =>
    match parseAction obj with
    | .error msg => .error (.last msg)
    | .ok .query => .ok queryResponse
    | .ok (.copy dest data) =>
      match copyFn dest data with
      | .error e => .error e
      | .ok _ => .ok []
    | .ok (.paste src) =>
      match pasteFn src with
      | .error e => .error e
      | .ok d =>
        let res := insertField [] "success" (.jbool true)
        let res := insertField res "data" (.jstr d.data)
        match d.mime with
        | some m => .ok (insertField res "mime" (.jstr m))
        | none => .ok res

/-- Modelled from the spec: serialization of the error cause chain.  The
dispatcher revision that serializes the chain is not under src (the main.rs
under src is a superseded revision flattening an error to its top message,
while the `Error` chain it would serialize is clipboard.rs's); spec
sections 4.6 and 4.7 state that a failure response is
`{success: false, message, source?}` where `source` recursively nests the
cause chain, one message per cause, omitted at the chain's end. -/
def errorJson : ErrChain → List (String × JValue)
  | .last msg => [("message", .jstr msg)]
  | .cons msg c => [("message", .jstr msg), ("source", .jobj (errorJson c))]

/-- Modelled from the spec: the complete failure response line. -/
def failureResponse (e : ErrChain) : JValue :=
  .jobj (("success", .jbool false) :: errorJson e)

/-- main.rs `run` (lines 394-409), over the parsed request lines of one
session: every line produces exactly one response value; a successful
request gets `success: true` inserted into its payload, a failed one
becomes a failure response, and the loop always continues with the next
line. -/
def runLines (copyFn : Dest → String → Except ErrChain Unit)
    (pasteFn : Source → Except ErrChain Data)
    (lines : List (Except String (List (String × JValue)))) : List JValue :=
  lines.map fun line =>
    match process_request copyFn pasteFn line with
    | .ok res => .jobj (insertField res "success" (.jbool true))
    | .error e => failureResponse e

/-- Nesting property of a failure response, stated independently of the
serializer: the JSON object carries the chain's message; its `source` field
is absent when the chain ends, and otherwise nests the cause's chain. -/
def chainOk : JValue → ErrChain → Prop
  | v, .last m =>
    v.getField "message" = some (.jstr m) ∧ v.getField "source" = none
  | v, .cons m c =>
    v.getField "message" = some (.jstr m) ∧
      ∃ w, v.getField "source" = some w ∧ chainOk w c

/-! ## Claim theorems -/

theorem chainOk_errorJson (c : ErrChain) : chainOk (.jobj (errorJson c)) c := by
  induction c with
  | last m => exact ⟨rfl, rfl⟩
  | cons m c ih => exact ⟨rfl, .jobj (errorJson c), rfl, ih⟩

theorem chainOk_failureResponse (e : ErrChain) : chainOk (failureResponse e) e := by
  cases e with
  | last m => exact ⟨rfl, rfl⟩
  | cons m c => exact ⟨rfl, .jobj (errorJson c), rfl, chainOk_errorJson c⟩

/-- C1: For every string `t` (in particular every `t` free of
framing-breaking sequences), copy-then-paste on the same backend instance
returns `t`: on Wayland for the `Default` and `Clipboard` selectors always
and for `Primary` when primary selection is supported, and on Windows for
every selector and either state of `convert_line_endings`, because
rewriting every `\n` to `\r\n` on copy followed by rewriting every `\r\n`
to `\n` on paste composes to the identity. -/
theorem C1_round_trip :
    (∀ (b : WaylandBackend) (st : WlState) (t : String),
      b.paste .default (b.copy .default t st)
          = .ok { data := t, mime := some "text/plain" } ∧
      b.paste .clipboard (b.copy .clipboard t st)
          = .ok { data := t, mime := some "text/plain" } ∧
      (b.primary_supported = true →
        b.paste .primary (b.copy .primary t st)
            = .ok { data := t, mime := some "text/plain" })) ∧
    (∀ (wb : WinBackend) (dest : Dest) (src : Source) (t : String),
      ∃ st, wb.copy lockOk dest t = .ok st ∧
        wb.paste lockOk src (winStateRead st) = .ok { data := t, mime := none }) ∧
    (∀ t : String, crlfToLfS (lfToCrlfS t) = t) := by
  refine ⟨?_, ?_, crlfToLfS_lfToCrlfS⟩
  · intro b st t
    obtain ⟨sup⟩ := b
    cases sup
    · exact ⟨rfl, rfl, fun h => absurd h (by decide)⟩
    · exact ⟨rfl, rfl, fun _ => rfl⟩
  · intro wb dest src t
    obtain ⟨flag⟩ := wb
    cases flag
    · exact ⟨some t, rfl, rfl⟩
    · refine ⟨some (lfToCrlfS t), rfl, ?_⟩
      have hdef : WinBackend.paste ⟨true⟩ lockOk src (winStateRead (some (lfToCrlfS t)))
          = .ok { data := crlfToLfS (lfToCrlfS t), mime := none } := rfl
      rw [hdef, crlfToLfS_lfToCrlfS]

/-- C1 witness: a concrete primary-selection round trip on a
primary-capable Wayland backend. -/
theorem C1_round_trip_witness :
    (⟨true⟩ : WaylandBackend).paste .primary
        ((⟨true⟩ : WaylandBackend).copy .primary "hi" ⟨none, none⟩)
      = .ok { data := "hi", mime := some "text/plain" } :=
  (C1_round_trip.1 ⟨true⟩ ⟨none, none⟩ "hi").2.2 rfl

/-- C2: every failed request is answered by a line `{success: false,
message, source?}` whose `source` field recursively nests the cause chain,
one message per cause, and is omitted at the chain's end (the root cause).
The chain serializer is modelled from the spec (see `errorJson`). -/
theorem C2_error_chain
    (copyFn : Dest → String → Except ErrChain Unit)
    (pasteFn : Source → Except ErrChain Data)
    (line : Except String (List (String × JValue))) (e : ErrChain)
    (h : process_request copyFn pasteFn line = .error e) :
    runLines copyFn pasteFn [line] = [failureResponse e] ∧
    (failureResponse e).getField "success" = some (.jbool false) ∧
    chainOk (failureResponse e) e := by
  refine ⟨?_, rfl, chainOk_failureResponse e⟩
  simp [runLines, h]

/-- C2 witness: the response to an unparsable line, with a one-element
chain. -/
theorem C2_error_chain_witness :
    runLines (fun _ _ => .ok ()) (fun _ => .ok { data := "", mime := none })
        [.error "expected ident at line 1 column 2"]
      = [failureResponse (.last "expected ident at line 1 column 2")] ∧
    (failureResponse (.last "expected ident at line 1 column 2")).getField
        "success" = some (.jbool false) ∧
    chainOk (failureResponse (.last "expected ident at line 1 column 2"))
      (.last "expected ident at line 1 column 2") :=
  C2_error_chain _ _ _ _ rfl

theorem winLockLoop_first_success (lock : Nat → Option String) :
    ∀ (k i tries delay : Nat), k < tries →
      (∀ j, j < k → lock (i + j) ≠ none) → lock (i + k) = none →
      (winLockLoop lock i tries delay).1 = .ok (i + k) := by
  intro k
  induction k with
  | zero =>
    intro i tries delay _ _ hsucc
    rw [Nat.add_zero] at hsucc
    simp [winLockLoop, hsucc]
  | succ k ih =>
    intro i tries delay hk hfail hsucc
    have h0 : lock i ≠ none := by
      have := hfail 0 (Nat.succ_pos k)
      rwa [Nat.add_zero] at this
    obtain ⟨e0, he0⟩ := Option.ne_none_iff_exists'.mp h0
    obtain ⟨t, rfl⟩ : ∃ t, tries = t + 1 := ⟨tries - 1, by omega⟩
    have ht : t ≠ 0 := by omega
    have hk' : k < t := by omega
    have hfail' : ∀ j, j < k → lock (i + 1 + j) ≠ none := by
      intro j hj
      have := hfail (j + 1) (by omega)
      rwa [show i + (j + 1) = i + 1 + j by omega] at this
    have hsucc' : lock (i + 1 + k) = none := by
      rwa [show i + (k + 1) = i + 1 + k by omega] at hsucc
    have hrec := ih (i + 1) t (min (delay * 2) 500) hk' hfail' hsucc'
    rw [show i + 1 + k = i + (k + 1) by omega] at hrec
    unfold winLockLoop
    rw [he0]
    simpa [ht] using hrec

theorem winLockLoop_exhaust (lock : Nat → Option String) :
    ∀ (tries i delay : Nat), 0 < tries →
      (∀ j, j < tries → lock (i + j) ≠ none) →
      ∃ m, lock (i + (tries - 1)) = some m ∧
        (winLockLoop lock i tries delay).1 = .error m := by
  intro tries
  induction tries with
  | zero => intro i delay h; omega
  | succ t ih =>
    intro i delay _ hfail
    have h0 : lock i ≠ none := by
      have := hfail 0 (by omega)
      rwa [Nat.add_zero] at this
    obtain ⟨e0, he0⟩ := Option.ne_none_iff_exists'.mp h0
    by_cases ht : t = 0
    · subst ht
      refine ⟨e0, by rwa [Nat.add_zero], ?_⟩
      simp [winLockLoop, he0]
    · obtain ⟨m, hm, hres⟩ := ih (i + 1) (min (delay * 2) 500) (by omega)
        (fun j hj => by
          have := hfail (j + 1) (by omega)
          rwa [show i + (j + 1) = i + 1 + j by omega] at this)
      refine ⟨m, ?_, ?_⟩
      · rwa [show i + (t + 1 - 1) = i + 1 + (t - 1) by omega]
      · unfold winLockLoop
        rw [he0]
        simpa [ht] using hres

/-- C3: every Windows clipboard get/set acquires the global lock with at
most 10 attempts: a first successful attempt at 0-based index `k ≤ 9`
(after `k` consecutive failures) lets the operation proceed and succeed,
while 10 consecutive failures surface a System error whose root cause is
the lock error. -/
theorem C3_lock_retry :
    (∀ (lock : Nat → Option String) (k : Nat), k ≤ 9 →
      (∀ j, j < k → lock j ≠ none) → lock k = none →
      winClipboardResult lock = .ok k ∧
      (∀ native, winGet lock native = winGetFrom native) ∧
      (∀ d, winSet lock d = .ok (some d))) ∧
    (∀ lock : Nat → Option String,
      (∀ j, j < 10 → lock j ≠ none) →
      ∃ m, lock 9 = some m ∧
        winClipboard lock
          = .error (CError.newWithSource .system (.last m)) ∧
        (∀ native, winGet lock native
          = .error (CError.newWithSource .system (.last m))) ∧
        (CError.newWithSource .system (.last m)).detail = .system ∧
        (CError.newWithSource .system (.last m)).toChain.root = m) := by
  constructor
  · intro lock k hk hfail hsucc
    have hres : winClipboardResult lock = .ok k := by
      have := winLockLoop_first_success lock k 0 10 10 (by omega)
        (fun j hj => by simpa using hfail j hj) (by simpa using hsucc)
      simpa [winClipboardResult] using this
    have hcb : winClipboard lock = .ok () := by
      simp [winClipboard, hres]
    refine ⟨hres, ?_, ?_⟩
    · intro native
      unfold winGet
      rw [hcb]
      exact rfl
    · intro d
      unfold winSet
      rw [hcb]
      exact rfl
  · intro lock hfail
    obtain ⟨m, hm, hres⟩ := winLockLoop_exhaust lock 10 0 10 (by omega)
      (fun j hj => by simpa using hfail j hj)
    have hm9 : lock 9 = some m := by simpa using hm
    have hres9 : winClipboardResult lock = .error m := hres
    have hcb : winClipboard lock
        = .error (CError.newWithSource .system (.last m)) := by
      simp [winClipboard, hres9]
    refine ⟨m, hm9, hcb, ?_, rfl, rfl⟩
    intro native
    unfold winGet
    rw [hcb]
    exact rfl

/-- C3 witness: success after three contended attempts; exhaustion under
permanent contention. -/
theorem C3_lock_retry_witness :
    winClipboardResult (fun i => if i < 3 then some "busy" else none)
      = .ok 3 ∧
    winGet (fun i => if i < 3 then some "busy" else none) (.ok "x")
      = winGetFrom (.ok "x") ∧
    winSet (fun i => if i < 3 then some "busy" else none) "y"
      = .ok (some "y") ∧
    winClipboard (fun _ => some "busy")
      = .error (CError.newWithSource .system (.last "busy")) := by
  obtain ⟨h1, h2, h3⟩ := C3_lock_retry.1
    (fun i => if i < 3 then some "busy" else none) 3
    (by decide) (by decide) (by decide)
  obtain ⟨m, hm, hcb, -, -, -⟩ := C3_lock_retry.2 (fun _ => some "busy")
    (by intro j h; simp)
  obtain rfl : "busy" = m := by simpa using hm
  exact ⟨h1, h2 _, h3 _, hcb⟩

/-- C4 counterexample: when every lock attempt fails, the loop performs
only nine sleeps, `[10, 20, 40, 80, 160, 320, 500, 500, 500]`, totalling
2130 ms — not the claimed ten-wait sequence ending in four 500 ms waits
(≈ 2.6 s): no sleep follows the tenth failed attempt. -/
theorem C4_counterexample :
    winClipboardSleeps (fun _ => some "access denied")
      = [10, 20, 40, 80, 160, 320, 500, 500, 500] ∧
    winClipboardSleeps (fun _ => some "access denied")
      ≠ [10, 20, 40, 80, 160, 320, 500, 500, 500, 500] ∧
    (winClipboardSleeps (fun _ => some "access denied")).sum = 2130 := by
  refine ⟨rfl, ?_, rfl⟩
  intro h
  rw [show winClipboardSleeps (fun _ => some "access denied")
      = [10, 20, 40, 80, 160, 320, 500, 500, 500] from rfl] at h
  simp at h

/-- C4 amended: when every acquisition attempt fails, the retry loop sleeps
for the sequence 10, 20, 40, 80, 160, 320, 500, 500, 500 ms (nine waits,
each double the previous capped at 500 ms, none after the final failed
attempt), totalling 2130 ms, before surfacing the lock error. -/
theorem C4_amended (lock : Nat → Option String)
    (h : ∀ j, j < 10 → lock j ≠ none) :
    winClipboardSleeps lock = [10, 20, 40, 80, 160, 320, 500, 500, 500] ∧
    (winClipboardSleeps lock).sum = 2130 := by
  obtain ⟨m0, h0⟩ := Option.ne_none_iff_exists'.mp (h 0 (by omega))
  obtain ⟨m1, h1⟩ := Option.ne_none_iff_exists'.mp (h 1 (by omega))
  obtain ⟨m2, h2⟩ := Option.ne_none_iff_exists'.mp (h 2 (by omega))
  obtain ⟨m3, h3⟩ := Option.ne_none_iff_exists'.mp (h 3 (by omega))
  obtain ⟨m4, h4⟩ := Option.ne_none_iff_exists'.mp (h 4 (by omega))
  obtain ⟨m5, h5⟩ := Option.ne_none_iff_exists'.mp (h 5 (by omega))
  obtain ⟨m6, h6⟩ := Option.ne_none_iff_exists'.mp (h 6 (by omega))
  obtain ⟨m7, h7⟩ := Option.ne_none_iff_exists'.mp (h 7 (by omega))
  obtain ⟨m8, h8⟩ := Option.ne_none_iff_exists'.mp (h 8 (by omega))
  obtain ⟨m9, h9⟩ := Option.ne_none_iff_exists'.mp (h 9 (by omega))
  have hs : winClipboardSleeps lock
      = [10, 20, 40, 80, 160, 320, 500, 500, 500] := by
    simp [winClipboardSleeps, winLockLoop, h0, h1, h2, h3, h4, h5, h6, h7,
      h8, h9]
  exact ⟨hs, by rw [hs]; rfl⟩

/-- C4 amended witness: the sleep sequence under permanent contention. -/
theorem C4_amended_witness :
    winClipboardSleeps (fun _ => some "busy")
      = [10, 20, 40, 80, 160, 320, 500, 500, 500] ∧
    (winClipboardSleeps (fun _ => some "busy")).sum = 2130 :=
  C4_amended (fun _ => some "busy") (by intro j h; simp)

/-- C5 counterexample: a Wayland offer that is successfully read with empty
content and mime `text/plain` yields a successful paste with `data == ""`
whose response does contain a `mime` field — refuting the claim that every
successful empty paste response has no mime field. -/
theorem C5_counterexample :
    wlPasteCore (.offer (.ok "") "text/plain")
      = .ok { data := "", mime := some "text/plain" } ∧
    runLines (fun _ _ => .ok ())
        (fun _ => liftBackend (wlPasteCore (.offer (.ok "") "text/plain")))
        [.ok [("action", .jstr "paste")]]
      = [.jobj [("success", .jbool true), ("data", .jstr ""),
                ("mime", .jstr "text/plain")]] ∧
    (JValue.jobj [("success", .jbool true), ("data", .jstr ""),
                  ("mime", .jstr "text/plain")]).getField "mime"
      = some (.jstr "text/plain") :=
  ⟨rfl, rfl, rfl⟩

/-- C5 amended: a paste response has no `mime` field whenever its empty
result comes from the normalized empty-clipboard conditions (Wayland
clipboard-empty / no-seats / no-mime, Windows raw codes 6 and 1168), from
the `text/_moz` filter, or from the Windows or X11 backends (which never
report a mime); a successful Wayland offer read with a non-`text/_moz`
mime reports that mime even when the content is empty. -/
theorem C5_amended :
    (wlPasteCore (.err .clipboardEmpty) = .ok { data := "", mime := none } ∧
     wlPasteCore (.err .noSeats) = .ok { data := "", mime := none } ∧
     wlPasteCore (.err .noMimeType) = .ok { data := "", mime := none }) ∧
    (∀ s m, strStartsWith m "text/_moz" = true →
      wlPasteCore (.offer (.ok s) m) = .ok { data := "", mime := none }) ∧
    (∀ (wb : WinBackend) (lock : Nat → Option String) (src : Source)
        (native : WinGetOutcome) (d : Data),
      wb.paste lock src native = .ok d → d.mime = none) ∧
    (∀ (load : Except String (List Nat)) (d : Data),
      x11_paste load = .ok d → d.mime = none) ∧
    (∀ s m, strStartsWith m "text/_moz" = false →
      wlPasteCore (.offer (.ok s) m) = .ok { data := s, mime := some m }) := by
  refine ⟨⟨rfl, rfl, rfl⟩, ?_, ?_, ?_, ?_⟩
  · intro s m h
    simp [wlPasteCore, h]
  · intro wb lock src native d h
    unfold WinBackend.paste at h
    cases hg : winGet lock native with
    | error e =>
      rw [hg] at h
      exact absurd h (by simp [Bind.bind, Except.bind])
    | ok s =>
      rw [hg] at h
      have : Except.ok (ε := CError)
          { data := if wb.convert_line_endings then crlfToLfS s else s,
            mime := none } = .ok d := h
      cases this
      rfl
  · intro load d h
    cases load with
    | error e => exact absurd h (by simp [x11_paste])
    | ok bytes =>
      have : Except.ok (ε := CError)
          { data := (⟨utf8Lossy bytes⟩ : String), mime := none } = .ok d := h
      cases this
      rfl
  · intro s m h
    simp [wlPasteCore, h]

/-- C5 amended witness: concrete instances of each conditional clause. -/
theorem C5_amended_witness :
    wlPasteCore (.offer (.ok "junk") "text/_mozilla-internal")
      = .ok { data := "", mime := none } ∧
    (Data.mk "hello" none).mime = none ∧
    (Data.mk "a" none).mime = none ∧
    wlPasteCore (.offer (.ok "x") "text/plain")
      = .ok { data := "x", mime := some "text/plain" } :=
  ⟨C5_amended.2.1 "junk" "text/_mozilla-internal" (by decide),
   C5_amended.2.2.1 ⟨false⟩ lockOk .default (.ok "hello")
     (Data.mk "hello" none) rfl,
   C5_amended.2.2.2.1 (.ok [0x61]) (Data.mk "a" none) rfl,
   C5_amended.2.2.2.2 "x" "text/plain" (by decide)⟩

/-- C6: on Wayland, `Default` and `Clipboard` always resolve to the regular
clipboard; with primary-selection support, `Primary` resolves to primary
and `Both` (copy only) to both; without it, `Primary` and `Both` silently
resolve to the regular clipboard and copy/paste behave identically to
`Clipboard`, never producing an error. -/
theorem C6_selector_mapping :
    (∀ b : WaylandBackend,
      b.copy_type .default = .regular ∧ b.copy_type .clipboard = .regular ∧
      b.paste_type .default = .regular ∧ b.paste_type .clipboard = .regular) ∧
    ((⟨true⟩ : WaylandBackend).copy_type .primary = .primary ∧
     (⟨true⟩ : WaylandBackend).copy_type .both = .both ∧
     (⟨true⟩ : WaylandBackend).paste_type .primary = .primary) ∧
    ((⟨false⟩ : WaylandBackend).copy_type .primary = .regular ∧
     (⟨false⟩ : WaylandBackend).copy_type .both = .regular ∧
     (⟨false⟩ : WaylandBackend).paste_type .primary = .regular) ∧
    (∀ (t : String) (st : WlState),
      (⟨false⟩ : WaylandBackend).copy .primary t st
        = (⟨false⟩ : WaylandBackend).copy .clipboard t st ∧
      (⟨false⟩ : WaylandBackend).copy .both t st
        = (⟨false⟩ : WaylandBackend).copy .clipboard t st ∧
      (⟨false⟩ : WaylandBackend).paste .primary st
        = (⟨false⟩ : WaylandBackend).paste .clipboard st) := by
  refine ⟨?_, ⟨rfl, rfl, rfl⟩, ⟨rfl, rfl, rfl⟩, ?_⟩
  · intro b
    obtain ⟨sup⟩ := b
    cases sup <;> exact ⟨rfl, rfl, rfl, rfl⟩
  · intro t st
    exact ⟨rfl, rfl, rfl⟩

/-- C7: the normalized non-errors — Wayland clipboard-empty, no-seats and
no-compatible-MIME, and Windows raw error codes 6 and 1168 — all yield a
successful paste with empty text and no mime, never an error. -/
theorem C7_normalized_empty :
    (wlPasteCore (.err .clipboardEmpty) = .ok { data := "", mime := none } ∧
     wlPasteCore (.err .noSeats) = .ok { data := "", mime := none } ∧
     wlPasteCore (.err .noMimeType) = .ok { data := "", mime := none }) ∧
    (∀ msg, winGetFrom (.err 6 msg) = .ok "" ∧
      winGetFrom (.err 1168 msg) = .ok "") ∧
    (∀ (wb : WinBackend) (src : Source) (msg : String) (code : Nat),
      code = 6 ∨ code = 1168 →
      wb.paste lockOk src (.err code msg) = .ok { data := "", mime := none }) := by
  refine ⟨⟨rfl, rfl, rfl⟩, fun msg => ⟨rfl, rfl⟩, ?_⟩
  rintro wb src msg code (rfl | rfl) <;>
    · obtain ⟨flag⟩ := wb
      cases flag <;> rfl

/-- C7 witness: both normalized Windows codes on concrete backends. -/
theorem C7_normalized_empty_witness :
    (⟨true⟩ : WinBackend).paste lockOk .default
        (.err 6 "format unavailable") = .ok { data := "", mime := none } ∧
    (⟨false⟩ : WinBackend).paste lockOk .clipboard
        (.err 1168 "element not found") = .ok { data := "", mime := none } :=
  ⟨C7_normalized_empty.2.2 ⟨true⟩ .default "format unavailable" 6 (Or.inl rfl),
   C7_normalized_empty.2.2 ⟨false⟩ .clipboard "element not found" 1168
     (Or.inr rfl)⟩

/-- C8: a Wayland paste whose offer reports a mime type beginning with
`text/_moz` yields success with empty data and no mime field, regardless
of the bytes actually read from the offer. -/
theorem C8_moz_phantom (s m : String)
    (h : strStartsWith m "text/_moz" = true) :
    wlPasteCore (.offer (.ok s) m) = .ok { data := "", mime := none } ∧
    (∀ (b : WaylandBackend) (src : Source) (st : WlState),
      st.read (b.paste_type src) = .offer (.ok s) m →
      b.paste src st = .ok { data := "", mime := none }) := by
  constructor
  · simp [wlPasteCore, h]
  · intro b src st hst
    unfold WaylandBackend.paste
    rw [hst]
    simp [wlPasteCore, h]

/-- C8 witness: a phantom Firefox offer with non-empty content. -/
theorem C8_moz_phantom_witness :
    wlPasteCore (.offer (.ok "real content") "text/_moz_htmlcontext")
      = .ok { data := "", mime := none } ∧
    WaylandBackend.paste ⟨true⟩ .primary
        ⟨none, some ("real content", "text/_moz_htmlcontext")⟩
      = .ok { data := "", mime := none } := by
  obtain ⟨h1, h2⟩ :=
    C8_moz_phantom "real content" "text/_moz_htmlcontext" (by decide)
  exact ⟨h1, h2 ⟨true⟩ .primary ⟨none, some ("real content", "text/_moz_htmlcontext")⟩ rfl⟩

/-- C9: the dispatcher emits exactly one response per input line and the
loop never exits on a per-request failure; in particular a non-JSON line
followed by `{"action":"query"}` produces exactly two responses — one
failure, then one success. -/
theorem C9_loop_resilience :
    (∀ (copyFn : Dest → String → Except ErrChain Unit)
        (pasteFn : Source → Except ErrChain Data)
        (lines : List (Except String (List (String × JValue)))),
      (runLines copyFn pasteFn lines).length = lines.length) ∧
    (∀ (copyFn : Dest → String → Except ErrChain Unit)
        (pasteFn : Source → Except ErrChain Data),
      runLines copyFn pasteFn
          [.error "expected value at line 1 column 1",
           .ok [("action", .jstr "query")]]
        = [failureResponse (.last "expected value at line 1 column 1"),
           .jobj (insertField queryResponse "success" (.jbool true))]) ∧
    (failureResponse (.last "expected value at line 1 column 1")).getField
        "success" = some (.jbool false) ∧
    (JValue.jobj (insertField queryResponse "success"
        (.jbool true))).getField "success" = some (.jbool true) := by
  refine ⟨?_, fun _ _ => rfl, rfl, rfl⟩
  intro copyFn pasteFn lines
  simp [runLines]

/-- C10: the X11 paste decodes whatever bytes the native selection load
returns lossily and totally — it never surfaces an invalid-UTF-8 error
(every paste error is a System error from the load itself) and its result
never carries a mime field; a concrete invalid byte decodes to U+FFFD. -/
theorem C10_x11_lossy :
    (∀ bytes : List Nat,
      x11_paste (.ok bytes) = .ok { data := ⟨utf8Lossy bytes⟩, mime := none }) ∧
    (∀ (load : Except String (List Nat)) (e : CError),
      x11_paste load = .error e → e.detail = .system) ∧
    (∀ (load : Except String (List Nat)) (d : Data),
      x11_paste load = .ok d → d.mime = none) ∧
    x11_paste (.ok [0xFF, 0x61])
      = .ok { data := ⟨[replacementChar, 'a']⟩, mime := none } := by
  refine ⟨fun _ => rfl, ?_, ?_, rfl⟩
  · intro load e h
    cases load with
    | ok bytes => exact absurd h (by simp [x11_paste])
    | error msg =>
      have : Except.error (α := Data)
          (CError.newWithSource .system (.last msg)) = .error e := h
      cases this
      rfl
  · intro load d h
    cases load with
    | error msg => exact absurd h (by simp [x11_paste])
    | ok bytes =>
      have : Except.ok (ε := CError)
          { data := (⟨utf8Lossy bytes⟩ : String), mime := none } = .ok d := h
      cases this
      rfl

/-- C10 witness: a failing load is a System error; an ok load with plain
ASCII keeps its decoded text and has no mime. -/
theorem C10_x11_lossy_witness :
    (CError.newWithSource .system (.last "load timed out")).detail
      = .system ∧
    (Data.mk (⟨utf8Lossy [0x68, 0x69]⟩ : String) none).mime = none :=
  ⟨C10_x11_lossy.2.1 (.error "load timed out")
      (CError.newWithSource .system (.last "load timed out")) rfl,
   C10_x11_lossy.2.2.1 (.ok [0x68, 0x69])
      (Data.mk (⟨utf8Lossy [0x68, 0x69]⟩ : String) none) rfl⟩

end Clipipe
